import Mathlib

/-!
# Verification of the multifan fan-speed controller (src/main.cpp)

A shallow embedding of the program in `src/main.cpp`.  Floating-point
`double` arithmetic is modelled by `ℚ` (all operations the program performs
on coefficients are exact on the inputs the claims consider); machine
integers are `Int`/`Nat` with explicit `% 256` where the `uint8_t`
conversion matters; fallible operations (C++ exceptions) are modelled with
`Except`/`Option` or explicit outcome types; file-system effects are
modelled by explicit environment records saying which writes succeed.
-/

namespace Multifan

/-! ## source (src/main.cpp lines 28-50)

`source` holds `std::optional<int32_t> last_value_`.  `update()` calls the
virtual `get()`; on success it stores the fresh value, on any exception it
resets the stored optional.  The provider call `get()` is modelled as an
`Except Unit Int` value supplied by the environment. -/

structure SourceState where
  last_value : Option Int
deriving Repr, DecidableEq

/-- `source::update` (lines 33-45): `try { last_value_ = get(); } catch (...)
{ last_value_.reset(); }`.  Total: the catch-all swallows every provider
failure. -/
def sourceUpdate (get : Except Unit Int) (_s : SourceState) : SourceState :=
  match get with
  | .ok v => { last_value := some v }
  | .error _ => { last_value := none }

/-! ## fan::driver (src/main.cpp lines 175-198) -/

structure Driver where
  /-- identifier of the bound `source` (the `src` pointer). -/
  src : Nat
  min : Int
  max : Int
deriving Repr, DecidableEq

/-- `fan::driver::get_coeff` (lines 181-197).  `src->last_value().value()`
throws `std::bad_optional_access` when the optional is empty, modelled as
`.error ()`.  Otherwise: `value < min ↦ 0.0`, `value > max ↦ 1.0`, else
`double(value - min) / (max - min)`. -/
def Driver.get_coeff (d : Driver) (sensorVal : Option Int) : Except Unit ℚ :=
  match sensorVal with
  | none => .error ()
  | some value =>
    if value < d.min then .ok 0
    else if value > d.max then .ok 1
    else .ok (((value : ℚ) - (d.min : ℚ)) / ((d.max : ℚ) - (d.min : ℚ)))

/-! ## fan (src/main.cpp lines 75-201) -/

structure Fan where
  /-- the actuator path `pwm_`. -/
  pwm : String
  pwm_min : Nat
  pwm_max : Nat
  drivers : List Driver
deriving Repr, DecidableEq

/-- The `fan` constructor (lines 79-84): `assert(pwm_max > pwm_min);
assert(acc_fn);`.  A failed `assert` aborts the process, modelled as
`none`.  The accumulation function pointer is kept outside the structure
(it is passed to `fanUpdate` explicitly); the constructor only checks its
non-nullness, modelled by the boolean `accPresent`. -/
def fanMk (pwm : String) (pwm_min pwm_max : Nat) (accPresent : Bool) :
    Option Fan :=
  if pwm_min < pwm_max ∧ accPresent then
    some { pwm := pwm, pwm_min := pwm_min, pwm_max := pwm_max, drivers := [] }
  else
    none

/-- `fan::add_driver` (line 132): `drivers_.emplace_back(&src, min, max)`.
No check of any kind is performed on `min`/`max`. -/
def Fan.add_driver (f : Fan) (src : Nat) (min max : Int) : Fan :=
  { f with drivers := f.drivers ++ [{ src := src, min := min, max := max }] }

/-- `static_cast<uint8_t>` applied to a non-negative `double` (the only use,
line 154, truncates `pwm_range * pwm_scale`): truncation toward zero then
reduction to 8 bits.  (For a negative or ≥ 2^8 out-of-range argument the
C++ conversion is undefined; the claims only exercise `x ∈ [0, 255]`.) -/
def toUint8 (x : ℚ) : Nat := (⌊x⌋).toNat % 256

/-- `std::to_string`-style decimal text production of `operator<<(int)` in
`fan::set_pwm` (line 163): the `uint8_t` parameter is widened to `int` and
written in base 10. -/
def set_pwm_text (value : Nat) : String := Nat.repr (value % 256)

/-- The duty computed at lines 153-154:
`pwm_range = pwm_max_ - pwm_min_` (integer promotion of the `uint8_t`
fields), `final_pwm = pwm_min_ + static_cast<uint8_t>(pwm_range *
pwm_scale)` — an `int`. -/
def computeFinalPwm (pwm_min pwm_max : Nat) (scale : ℚ) : Nat :=
  pwm_min + toUint8 (((pwm_max : ℚ) - (pwm_min : ℚ)) * scale)

/-- Coefficient collection loop of `fan::update` (lines 136-150): push each
driver coefficient in order; on the first `bad_optional_access` log a
warning naming the offending source and return (abort the whole update).
`.error s` carries the offending source id. -/
def collectCoeffs (sensors : Nat → Option Int) : List Driver → Except Nat (List ℚ)
  | [] => .ok []
  | d :: ds =>
    match d.get_coeff (sensors d.src) with
    | .error _ => .error d.src
    | .ok c =>
      match collectCoeffs sensors ds with
      | .error s => .error s
      | .ok cs => .ok (c :: cs)

/-- Result of one `fan::update` call. -/
inductive UpdateOutcome where
  /-- a driver source had no value: warning logged naming `offendingSrc`,
  no actuation (lines 144-149). -/
  | skipped (offendingSrc : Nat)
  /-- `set_pwm(final_pwm)` succeeded; `text` is the decimal string written
  to the actuator file. -/
  | wrote (duty : Nat) (text : String)
  /-- the actuator write failed: `set_pwm_failed` exception (line 165). -/
  | writeFailed (wanted : Nat)
deriving Repr, DecidableEq

/-- `fan::update` (lines 134-157).  `acc` is the accumulation function
`accum_fn_`; `sensors` gives the current value of each source `last_value`; `writeOk`
says whether the actuator write succeeds; `st` is the last-commanded duty
(actuator state), updated only by a successful write. -/
def fanUpdate (acc : List ℚ → ℚ) (f : Fan) (sensors : Nat → Option Int)
    (writeOk : Bool) (st : Option Nat) : UpdateOutcome × Option Nat :=
  match collectCoeffs sensors f.drivers with
  | .error s => (.skipped s, st)
  | .ok values =>
    let pwm_scale := acc values
    let final_pwm := computeFinalPwm f.pwm_min f.pwm_max pwm_scale
    let duty := final_pwm % 256
    if writeOk then (.wrote duty (set_pwm_text final_pwm), some duty)
    else (.writeFailed duty, st)

/-- The reference accumulation function (line 261):
`*std::max_element(vals.begin(), vals.end())` — maximum of a non-empty
span (dereferencing `end()` on an empty span is undefined; the program
only ever calls it with at least one driver coefficient when claims
exercise it). -/
def accumMax : List ℚ → ℚ
  | [] => 0
  | x :: xs => xs.foldl max x

/-! ## fan::reset (src/main.cpp lines 101-120) -/

/-- The sibling enable path (lines 103-104): the actuator identity with the
fixed suffix `_enable` appended to its filename. -/
def enablePath (pwm : String) : String := pwm ++ "_enable"

/-- Environment for one `fan::reset` call: whether the `_enable` sibling
file opens, whether writing `"1"` to it succeeds, and whether the
`set_pwm(255)` write succeeds. -/
structure ResetEnv where
  enableOpens : Bool
  enableWriteOk : Bool
  pwmWriteOk : Bool
deriving Repr, DecidableEq

inductive ResetResult where
  /-- normal return. -/
  | ok
  /-- `reset_failed` exception (line 111): the enable file opened but the
  write failed. -/
  | resetFailed
  /-- `set_pwm_failed` exception with the wanted value (line 165). -/
  | setPwmFailed (wanted : Nat)
deriving Repr, DecidableEq

structure ResetOutcome where
  result : ResetResult
  /-- the actuator state (last duty written), updated by a successful
  `set_pwm(255)`. -/
  state : Option Nat
  /-- whether the full-speed `set_pwm(255)` write was attempted. -/
  pwmWriteAttempted : Bool
  /-- the sibling resource the enable marker write was attempted on (when
  the file opened), and the text written to it. -/
  enableTarget : Option (String × String)
  /-- the decimal text handed to the actuator file when the full-speed
  write was attempted. -/
  pwmText : Option String
deriving Repr, DecidableEq

/-- `fan::reset` (lines 101-120).  Open the `_enable` sibling: if it does
not open, log at debug level only and continue; if it opens, write `"1"`,
failure being a `reset_failed` hard error thrown before `set_pwm` runs.
Then `set_pwm(255)`, whose failure is a `set_pwm_failed` hard error. -/
def fanReset (f : Fan) (env : ResetEnv) (st : Option Nat) : ResetOutcome :=
  if env.enableOpens then
    if env.enableWriteOk then
      if env.pwmWriteOk then
        { result := .ok, state := some 255, pwmWriteAttempted := true,
          enableTarget := some (enablePath f.pwm, "1"),
          pwmText := some (set_pwm_text 255) }
      else
        { result := .setPwmFailed 255, state := st, pwmWriteAttempted := true,
          enableTarget := some (enablePath f.pwm, "1"),
          pwmText := some (set_pwm_text 255) }
    else
      { result := .resetFailed, state := st, pwmWriteAttempted := false,
        enableTarget := some (enablePath f.pwm, "1"), pwmText := none }
  else
    if env.pwmWriteOk then
      { result := .ok, state := some 255, pwmWriteAttempted := true,
        enableTarget := none, pwmText := some (set_pwm_text 255) }
    else
      { result := .setPwmFailed 255, state := st, pwmWriteAttempted := true,
        enableTarget := none, pwmText := some (set_pwm_text 255) }

/-! ## main (src/main.cpp lines 250-283)

`main` runs `reset_fans`, then `main_loop` until the signal flag is set or
a `fan` exception propagates; a caught exception sets `rv = 1`; then
`reset_fans` runs again unconditionally (line 281, outside the try block:
an exception thrown there escapes `main` and terminates the process
abnormally via `std::terminate`). -/

/-- How the steady-state loop ended: the cancellation flag was observed, or
a fan exception (actuator write failure) propagated out. -/
inductive LoopEnd where
  | cancelled
  | actuatorError
deriving Repr, DecidableEq

structure MainEnv where
  /-- the initial `reset_fans` pass succeeds. -/
  initialResetOk : Bool
  /-- how `main_loop` ends (relevant only when the initial reset
  succeeded). -/
  loopEnd : LoopEnd
  /-- the final `reset_fans` pass (line 281) succeeds. -/
  finalResetOk : Bool
deriving Repr, DecidableEq

/-- How the process terminates. -/
inductive ExitStatus where
  /-- `return rv` from `main`. -/
  | exit (code : Nat)
  /-- abnormal termination: the final `reset_fans` threw outside any try
  block, so `std::terminate` runs (a non-zero, non-`exit` termination). -/
  | aborted
deriving Repr, DecidableEq

/-- `main` (lines 250-283), abstracted over the environment: computes `rv`
from the try block, then always runs the final `reset_fans`.  Returns the
termination status and whether the final reset pass was attempted. -/
def mainRun (env : MainEnv) : ExitStatus × Bool :=
  let rv : Nat :=
    if env.initialResetOk then
      match env.loopEnd with
      | .cancelled => 0
      | .actuatorError => 1
    else 1
  if env.finalResetOk then (.exit rv, true) else (.aborted, true)

/-- `true` exactly when the process signalled success to its parent. -/
def ExitStatus.isSuccess : ExitStatus → Bool
  | .exit 0 => true
  | .exit (_ + 1) => false
  | .aborted => false

/-- The source id logged by the coefficient loop when it aborts: the first
driver in order whose source has no value (the loop of lines 138-150 stops
at the first `bad_optional_access`). -/
def firstMissingSrc (sensors : Nat → Option Int) : List Driver → Option Nat
  | [] => none
  | d :: ds => if sensors d.src = none then some d.src else firstMissingSrc sensors ds

/-- The spec scenario fan: `pwm_min = 60`, `pwm_max = 240`, one driver with
thresholds `60000`/`80000` (the cpu driver of line 263). -/
def scenarioFan : Fan :=
  { pwm := "pwm2", pwm_min := 60, pwm_max := 240,
    drivers := [{ src := 0, min := 60000, max := 80000 }] }

/-- Sensor environment for the scenario: every source reads `70000`. -/
def scenarioSensors : Nat → Option Int := fun _ => some 70000

/-- A fan with two drivers: source `0` (thresholds `0`/`5`, so a reading of
`1` gives coefficient `1/5`) and source `1` (thresholds `60000`/`80000`). -/
def twoDriverFan : Fan :=
  { pwm := "pwm2", pwm_min := 60, pwm_max := 240,
    drivers := [{ src := 0, min := 0, max := 5 },
                { src := 1, min := 60000, max := 80000 }] }

/-- Sensor environment where source `0` reads `1` (coefficient `1/5` for the
first driver of `twoDriverFan`) and every other source has no value. -/
def oneMissingSensors : Nat → Option Int := fun n => if n = 0 then some 1 else none

/-! ## Theorems -/

/-- `get_coeff` on a present value never fails: every branch returns `ok`. -/
theorem get_coeff_some_ok (d : Driver) (v : Int) :
    ∃ c : ℚ, d.get_coeff (some v) = .ok c := by
  simp only [Driver.get_coeff]
  split_ifs <;> exact ⟨_, rfl⟩

/-- When the source of some driver has no value, the coefficient loop aborts with
the first such source, exactly as `firstMissingSrc` computes it. -/
theorem collectCoeffs_error_of_missing (sensors : Nat → Option Int) :
    ∀ ds : List Driver, (∃ d ∈ ds, sensors d.src = none) →
      firstMissingSrc sensors ds = some ((firstMissingSrc sensors ds).getD 0) ∧
      sensors ((firstMissingSrc sensors ds).getD 0) = none ∧
      collectCoeffs sensors ds = .error ((firstMissingSrc sensors ds).getD 0) := by
  intro ds
  induction ds with
  | nil =>
    rintro ⟨d, hd, _⟩
    exact absurd hd (List.not_mem_nil d)
  | cons d ds ih =>
    rintro ⟨d0, hd0, hnone⟩
    by_cases hs : sensors d.src = none
    · refine ⟨?_, ?_, ?_⟩ <;>
        simp [firstMissingSrc, collectCoeffs, Driver.get_coeff, hs]
    · rcases Option.ne_none_iff_exists'.mp hs with ⟨v, hv⟩
      rcases get_coeff_some_ok d v with ⟨c, hc⟩
      have hd0ds : d0 ∈ ds := by
        rcases List.mem_cons.mp hd0 with h | h
        · exact absurd (h ▸ hnone) hs
        · exact h
      rcases ih ⟨d0, hd0ds, hnone⟩ with ⟨h1, h2, h3⟩
      have hfm : firstMissingSrc sensors (d :: ds) = firstMissingSrc sensors ds := by
        simp [firstMissingSrc, hs]
      refine ⟨?_, ?_, ?_⟩ <;> rw [hfm]
      · exact h1
      · exact h2
      · simp [collectCoeffs, hv, hc, h3]

/-- C1: when the source of any attached driver has no current value,
`fan::update` performs no actuator write (the commanded duty is unchanged),
returns the `skipped` outcome naming an offending source whose value is
missing (the warning log of lines 146-147), and never reaches the
accumulation function — the result is identical for every accumulation
function, write environment and prior actuator state. -/
theorem C1_update_skips_on_missing_value (f : Fan) (sensors : Nat → Option Int)
    (h : ∃ d ∈ f.drivers, sensors d.src = none) :
    sensors ((firstMissingSrc sensors f.drivers).getD 0) = none ∧
    ∀ (acc : List ℚ → ℚ) (writeOk : Bool) (st : Option Nat),
      fanUpdate acc f sensors writeOk st =
        (.skipped ((firstMissingSrc sensors f.drivers).getD 0), st) := by
  rcases collectCoeffs_error_of_missing sensors f.drivers h with ⟨_, h2, h3⟩
  exact ⟨h2, fun acc writeOk st => by simp [fanUpdate, h3]⟩

/-- Witness for C1: the spec scenario of two drivers — one with coefficient
`1/5` available, the other source empty — skips the update: no write,
state unchanged, outcome names source `1`. -/
theorem C1_update_skips_witness :
    oneMissingSensors 1 = none ∧
    fanUpdate accumMax twoDriverFan oneMissingSensors true (some 150) =
      (.skipped 1, some 150) := by
  obtain ⟨h1, h2⟩ := C1_update_skips_on_missing_value twoDriverFan oneMissingSensors
    ⟨{ src := 1, min := 60000, max := 80000 }, by simp [twoDriverFan], rfl⟩
  have hfm : (firstMissingSrc oneMissingSensors twoDriverFan.drivers).getD 0 = 1 := by rfl
  rw [hfm] at h1 h2
  exact ⟨h1, h2 accumMax true (some 150)⟩

/-- C2: with `pwm_min < pwm_max` (both `uint8`, so `≤ 255`) and an
accumulated scale in `[0, 1]`, the duty of lines 153-154 equals
`pwm_min + ⌊(pwm_max − pwm_min) · scale⌋` (truncation, not rounding, and
the `uint8` reduction is vacuous); it is `pwm_min` at scale `0`, `pwm_max`
at scale `1`, and always within `[pwm_min, pwm_max]`; and on the spec
scenario (`pwm_min = 60`, `pwm_max = 240`, one driver `60000`/`80000`,
accumulation max, sensor value `70000`) `fan::update` writes duty `150`. -/
theorem C2_duty_formula (pmin pmax : Nat) (scale : ℚ)
    (h1 : pmin < pmax) (h2 : pmax ≤ 255) (h3 : 0 ≤ scale) (h4 : scale ≤ 1) :
    computeFinalPwm pmin pmax scale
        = pmin + (⌊((pmax : ℚ) - (pmin : ℚ)) * scale⌋).toNat ∧
    computeFinalPwm pmin pmax 0 = pmin ∧
    computeFinalPwm pmin pmax 1 = pmax ∧
    pmin ≤ computeFinalPwm pmin pmax scale ∧
    computeFinalPwm pmin pmax scale ≤ pmax ∧
    fanUpdate accumMax scenarioFan scenarioSensors true none
      = (.wrote 150 "150", some 150) := by
  have hr : ((pmax : ℚ) - (pmin : ℚ)) = (((pmax : ℤ) - (pmin : ℤ) : ℤ) : ℚ) := by
    push_cast
    ring
  have hx0 : (0 : ℚ) ≤ ((pmax : ℚ) - (pmin : ℚ)) * scale := by
    apply mul_nonneg _ h3
    rw [sub_nonneg]
    exact_mod_cast h1.le
  have hxr : ((pmax : ℚ) - (pmin : ℚ)) * scale ≤ ((pmax : ℚ) - (pmin : ℚ)) := by
    apply mul_le_of_le_one_right _ h4
    rw [sub_nonneg]
    exact_mod_cast h1.le
  have hfl0 : 0 ≤ ⌊((pmax : ℚ) - (pmin : ℚ)) * scale⌋ := Int.floor_nonneg.mpr hx0
  have hflr : ⌊((pmax : ℚ) - (pmin : ℚ)) * scale⌋ ≤ (pmax : ℤ) - (pmin : ℤ) := by
    rw [Int.floor_le_iff]
    calc ((pmax : ℚ) - (pmin : ℚ)) * scale ≤ ((pmax : ℚ) - (pmin : ℚ)) := hxr
    _ < (((pmax : ℤ) - (pmin : ℤ) : ℤ) : ℚ) + 1 := by rw [← hr]; linarith
  have htoNat : (⌊((pmax : ℚ) - (pmin : ℚ)) * scale⌋).toNat ≤ pmax - pmin := by
    have := Int.toNat_le_toNat hflr
    omega
  have hlt : (⌊((pmax : ℚ) - (pmin : ℚ)) * scale⌋).toNat < 256 := by omega
  have hmain : computeFinalPwm pmin pmax scale
      = pmin + (⌊((pmax : ℚ) - (pmin : ℚ)) * scale⌋).toNat := by
    unfold computeFinalPwm toUint8
    rw [Nat.mod_eq_of_lt hlt]
  have hcoeff : collectCoeffs scenarioSensors
      [{ src := 0, min := 60000, max := 80000 }] = .ok [1/2] := by
    norm_num [collectCoeffs, Driver.get_coeff, scenarioSensors]
  have hfloor : ⌊(((240:ℕ):ℚ) - ((60:ℕ):ℚ)) * ((1:ℚ)/2)⌋ = (90 : ℤ) := by
    have h90 : (((240:ℕ):ℚ) - ((60:ℕ):ℚ)) * ((1:ℚ)/2) = ((90:ℤ):ℚ) := by
      push_cast
      norm_num
    rw [h90, Int.floor_intCast]
  have hfinal : computeFinalPwm 60 240 (1/2) = 150 := by
    unfold computeFinalPwm toUint8
    rw [hfloor]
    rfl
  refine ⟨hmain, ?_, ?_, ?_, ?_, ?_⟩
  · unfold computeFinalPwm toUint8
    norm_num
  · unfold computeFinalPwm toUint8
    rw [mul_one, hr, Int.floor_intCast]
    omega
  · rw [hmain]
    exact Nat.le_add_right _ _
  · rw [hmain]
    omega
  · have hacc : accumMax [(1:ℚ)/2] = 1/2 := rfl
    simp only [fanUpdate, scenarioFan, hcoeff, hacc, hfinal, if_true]
    rfl

/-- Witness for C2: at `pwm_min = 60`, `pwm_max = 240`, scale `1/2` the
formula gives duty `150`, and at scale `1` it gives `240`. -/
theorem C2_duty_formula_witness :
    computeFinalPwm 60 240 (1/2) = 150 ∧ computeFinalPwm 60 240 1 = 240 := by
  have h := C2_duty_formula 60 240 (1/2) (by norm_num) (by norm_num)
    (by norm_num) (by norm_num)
  refine ⟨?_, h.2.2.1⟩
  rw [h.1]
  have h90 : (((240:ℕ):ℚ) - ((60:ℕ):ℚ)) * ((1:ℚ)/2) = ((90:ℤ):ℚ) := by
    push_cast
    norm_num
  rw [show ((1:ℚ)/2) = (1/2 : ℚ) from rfl] at h90
  rw [h90, Int.floor_intCast]
  rfl

/-- C5: the final `reset_fans` pass (line 281) is always attempted, whether
the loop ended via cancellation or a fatal actuator error and even when the
initial reset pass failed; the process signals success exactly when the
initial reset succeeded, the loop ended by clean cancellation, and the
final reset succeeded; an initial-reset failure always yields a non-zero
termination; a final-reset failure terminates abnormally (never a
masking success) regardless of how the run ended. -/
theorem C5_exit_protocol (env : MainEnv) :
    (mainRun env).2 = true ∧
    ((mainRun env).1.isSuccess = true ↔
      (env.initialResetOk = true ∧ env.loopEnd = .cancelled ∧
        env.finalResetOk = true)) ∧
    (env.initialResetOk = false → (mainRun env).1 ≠ .exit 0) ∧
    (env.finalResetOk = false → (mainRun env).1 = .aborted) := by
  rcases env with ⟨i, l, fr⟩
  cases i <;> cases l <;> cases fr <;> decide

/-- Witness for C5: with a failed initial reset, a loop ended by actuator
error and a successful final reset, the final pass is attempted and the
process does not exit 0. -/
theorem C5_exit_protocol_witness :
    (mainRun ⟨false, .actuatorError, true⟩).2 = true ∧
    (mainRun ⟨false, .actuatorError, true⟩).1 ≠ .exit 0 := by
  exact ⟨(C5_exit_protocol ⟨false, .actuatorError, true⟩).1,
    (C5_exit_protocol ⟨false, .actuatorError, true⟩).2.2.1 rfl⟩

/-- C6: `fan::reset` attempts the manual-enable marker write on the sibling
resource (the actuator identity with the fixed `_enable` suffix) exactly
when it opens; when the sibling does not open this is non-fatal (no
`reset_failed`) and the full-speed write is still attempted; when the
sibling opens but its write fails, `reset` raises the `reset_failed` hard
error; a failing full-speed write raises the `set_pwm_failed 255` hard
error; and when everything succeeds the actuator ends at duty 255. -/
theorem C6_reset_protocol (f : Fan) (env : ResetEnv) (st : Option Nat) :
    ((fanReset f env st).enableTarget =
      if env.enableOpens then some (f.pwm ++ "_enable", "1") else none) ∧
    (env.enableOpens = false →
      (fanReset f env st).pwmWriteAttempted = true ∧
      (fanReset f env st).result ≠ .resetFailed) ∧
    (env.enableOpens = true → env.enableWriteOk = false →
      (fanReset f env st).result = .resetFailed) ∧
    ((env.enableOpens = false ∨ env.enableWriteOk = true) →
      env.pwmWriteOk = false →
      (fanReset f env st).result = .setPwmFailed 255) ∧
    ((env.enableOpens = false ∨ env.enableWriteOk = true) →
      env.pwmWriteOk = true →
      (fanReset f env st).result = .ok ∧ (fanReset f env st).state = some 255) := by
  rcases env with ⟨eo, ew, pw⟩
  cases eo <;> cases ew <;> cases pw <;>
    simp [fanReset, enablePath]

/-- Witness for C6: with the sibling resource absent and a working
actuator, the full-speed write is attempted and no `reset_failed` error is
reported. -/
theorem C6_reset_protocol_witness :
    (fanReset scenarioFan ⟨false, false, true⟩ none).pwmWriteAttempted = true ∧
    (fanReset scenarioFan ⟨false, false, true⟩ none).result ≠ .resetFailed := by
  exact (C6_reset_protocol scenarioFan ⟨false, false, true⟩ none).2.1 rfl

/-- Refutes C7 as stated: `fan::add_driver` (line 132) performs no check of
any kind on the driver thresholds.  Adding a driver with `min = 5 ≥ 3 =
max` to a validly constructed fan succeeds silently — the invalid driver is
stored and no assertion fires — instead of failing loudly before the loop
starts. -/
theorem C7_add_driver_accepts_inverted_thresholds :
    (fanMk "p" 60 240 true).map (fun f => (f.add_driver 0 5 3).drivers)
      = some [{ src := 0, min := 5, max := 3 }] := by
  rfl

/-- C7 amended: the construction-time assertions of lines 82-83 do fire for
an inverted pwm range or a null accumulation function — construction
succeeds exactly when `pwm_min < pwm_max` and the accumulation function is
present, and aborts otherwise — but driver thresholds are never checked:
`add_driver` stores whatever pair it is given. -/
theorem C7_construction_asserts (pwm : String) (pmin pmax : Nat) (acc : Bool)
    (f : Fan) (src : Nat) (mn mx : Int) :
    ((fanMk pwm pmin pmax acc).isSome ↔ (pmin < pmax ∧ acc = true)) ∧
    (f.add_driver src mn mx).drivers
      = f.drivers ++ [{ src := src, min := mn, max := mx }] := by
  constructor
  · unfold fanMk
    split_ifs with h
    · simp only [Option.isSome_some, true_iff]
      exact h
    · simp only [Option.isSome_none, Bool.false_eq_true, false_iff]
      exact h
  · rfl

/-- C9: in any environment in which `fan::reset` succeeds, the actuator
ends at duty 255, and a second `reset` in the same environment also
succeeds and ends at the same final actuator state 255. -/
theorem C9_reset_idempotent (f : Fan) (env : ResetEnv) (st : Option Nat)
    (h : (fanReset f env st).result = .ok) :
    (fanReset f env st).state = some 255 ∧
    (fanReset f env ((fanReset f env st).state)).result = .ok ∧
    (fanReset f env ((fanReset f env st).state)).state = some 255 := by
  rcases env with ⟨eo, ew, pw⟩
  cases eo <;> cases ew <;> cases pw <;> simp_all [fanReset]

/-- Witness for C9: in the all-good environment, two consecutive resets
both end at duty 255 and the second reports no error. -/
theorem C9_reset_idempotent_witness :
    (fanReset scenarioFan ⟨true, true, true⟩ none).state = some 255 ∧
    (fanReset scenarioFan ⟨true, true, true⟩
      ((fanReset scenarioFan ⟨true, true, true⟩ none).state)).result = .ok ∧
    (fanReset scenarioFan ⟨true, true, true⟩
      ((fanReset scenarioFan ⟨true, true, true⟩ none).state)).state = some 255 :=
  C9_reset_idempotent scenarioFan ⟨true, true, true⟩ none rfl

/-- C10: every value written to a fan actuator passes through the 8-bit
`set_pwm` parameter and is emitted as the base-10 decimal text of an
integer in `[0, 255]`: `set_pwm_text` always renders `n % 256 ≤ 255`; a
successful `fan::update` write carries a duty `≤ 255` whose text is its
decimal representation; and the `fan::reset` full-speed write always
carries the decimal text of 255. -/
theorem C10_writes_are_bounded_decimal :
    (∀ n : Nat, n % 256 ≤ 255 ∧ set_pwm_text n = Nat.repr (n % 256)) ∧
    (∀ (acc : List ℚ → ℚ) (f : Fan) (sensors : Nat → Option Int)
        (writeOk : Bool) (st : Option Nat) (duty : Nat) (text : String),
      (fanUpdate acc f sensors writeOk st).1 = .wrote duty text →
        duty ≤ 255 ∧ text = Nat.repr duty) ∧
    (∀ (f : Fan) (env : ResetEnv) (st : Option Nat) (s : String),
      (fanReset f env st).pwmText = some s → s = Nat.repr 255) := by
  refine ⟨fun n => ⟨by omega, rfl⟩, ?_, ?_⟩
  · intro acc f sensors writeOk st duty text h
    rcases hc : collectCoeffs sensors f.drivers with s | values
    · simp only [fanUpdate, hc] at h
      cases h
    · simp only [fanUpdate, hc] at h
      cases writeOk with
      | false =>
        simp only [Bool.false_eq_true, if_false] at h
        cases h
      | true =>
        simp only [if_true] at h
        injection h with h1 h2
        subst h1
        subst h2
        exact ⟨by omega, rfl⟩
  · intro f env st s h
    rcases env with ⟨eo, ew, pw⟩
    cases eo <;> cases ew <;> cases pw <;> simp [fanReset] at h <;> subst h <;> rfl

/-- Witness for C10: the successful scenario update write carries duty
`150 ≤ 255` with text `"150"`, its decimal representation. -/
theorem C10_writes_witness : (150 : Nat) ≤ 255 ∧ "150" = Nat.repr 150 := by
  refine C10_writes_are_bounded_decimal.2.1 accumMax scenarioFan scenarioSensors
    true none 150 "150" ?_
  have hcoeff : collectCoeffs scenarioSensors
      [{ src := 0, min := 60000, max := 80000 }] = .ok [1/2] := by
    norm_num [collectCoeffs, Driver.get_coeff, scenarioSensors]
  have hfloor : ⌊(((240:ℕ):ℚ) - ((60:ℕ):ℚ)) * ((1:ℚ)/2)⌋ = (90 : ℤ) := by
    have h90 : (((240:ℕ):ℚ) - ((60:ℕ):ℚ)) * ((1:ℚ)/2) = ((90:ℤ):ℚ) := by
      push_cast
      norm_num
    rw [h90, Int.floor_intCast]
  have hfinal : computeFinalPwm 60 240 (1/2) = 150 := by
    unfold computeFinalPwm toUint8
    rw [hfloor]
    rfl
  have hacc : accumMax [(1:ℚ)/2] = 1/2 := rfl
  simp only [fanUpdate, scenarioFan, hcoeff, hacc, hfinal, if_true]
  rfl

/-- C4: `source::update` never raises past its own boundary (it is a total
state transition: the `catch (...)` swallows every provider failure), and
afterwards `last_value` is the freshly observed value on a successful read
and empty on any failure — a failed read clears the previously stored
value, whatever it was, so no stale value survives. -/
theorem C4_source_update_fresh_or_empty :
    (∀ (v : Int) (s : SourceState),
        sourceUpdate (.ok v) s = { last_value := some v }) ∧
    (∀ (e : Unit) (s : SourceState),
        sourceUpdate (.error e) s = { last_value := none }) := by
  exact ⟨fun _ _ => rfl, fun _ _ => rfl⟩

/-- C3: for a driver with `min < max` whose sensor holds `v`, `get_coeff`
returns exactly `0` when `v ≤ min` (including `v = min`, where the ratio
degenerates to `0`), exactly `1` when `v ≥ max` (including `v = max`),
otherwise the exact ratio `(v − min) / (max − min)`; and every returned
coefficient lies in `[0, 1]`. -/
theorem C3_get_coeff_spec (d : Driver) (v : Int) (h : d.min < d.max) :
    (v ≤ d.min → d.get_coeff (some v) = .ok 0) ∧
    (d.max ≤ v → d.get_coeff (some v) = .ok 1) ∧
    (d.min < v → v < d.max →
      d.get_coeff (some v) =
        .ok (((v : ℚ) - (d.min : ℚ)) / ((d.max : ℚ) - (d.min : ℚ)))) ∧
    (∀ c : ℚ, d.get_coeff (some v) = .ok c → 0 ≤ c ∧ c ≤ 1) := by
  have hrange : (0 : ℚ) < (d.max : ℚ) - (d.min : ℚ) := by
    rw [sub_pos]
    exact_mod_cast h
  have part1 : v ≤ d.min → d.get_coeff (some v) = .ok 0 := by
    intro hv
    by_cases h1 : v < d.min
    · simp [Driver.get_coeff, h1]
    · have hv2 : v = d.min := le_antisymm hv (not_lt.mp h1)
      have h3 : ¬ d.max < d.min := lt_asymm h
      simp [Driver.get_coeff, hv2, h3, sub_self, zero_div]
  have part2 : d.max ≤ v → d.get_coeff (some v) = .ok 1 := by
    intro hv
    have h1 : ¬ v < d.min := by omega
    by_cases h2 : v > d.max
    · simp [Driver.get_coeff, h1, h2]
    · have hv2 : v = d.max := le_antisymm (not_lt.mp h2) hv
      simp only [Driver.get_coeff, if_neg h1, if_neg h2, hv2]
      rw [div_self (ne_of_gt hrange)]
      simp [lt_asymm h]
  have part3 : d.min < v → v < d.max →
      d.get_coeff (some v) =
        .ok (((v : ℚ) - (d.min : ℚ)) / ((d.max : ℚ) - (d.min : ℚ))) := by
    intro hlo hhi
    have h1 : ¬ v < d.min := by omega
    have h2 : ¬ v > d.max := by omega
    simp [Driver.get_coeff, h1, h2]
  refine ⟨part1, part2, part3, ?_⟩
  intro c hc
  rcases le_or_lt v d.min with hv | hv
  · rw [part1 hv] at hc
    cases hc
    exact ⟨le_refl 0, by norm_num⟩
  · rcases le_or_lt d.max v with hv2 | hv2
    · rw [part2 hv2] at hc
      cases hc
      exact ⟨by norm_num, le_refl 1⟩
    · rw [part3 hv hv2] at hc
      cases hc
      constructor
      · apply div_nonneg _ hrange.le
        rw [sub_nonneg]
        exact_mod_cast hv.le
      · rw [div_le_one hrange]
        apply sub_le_sub_right
        exact_mod_cast hv2.le

/-- Witness for C3: the spec scenario driver `min = 60000, max = 80000`
with sensor value `70000` yields coefficient `1/2`. -/
theorem C3_get_coeff_spec_witness :
    Driver.get_coeff ⟨0, 60000, 80000⟩ (some 70000) = .ok (1/2) := by
  have h := (C3_get_coeff_spec ⟨0, 60000, 80000⟩ 70000 (by decide)).2.2.1
    (by decide) (by decide)
  rw [h]
  norm_num

end Multifan
